import Mathlib

/-!
Shallow embedding of the `tasktrace` crate (src/lib.rs): a wrapper that
captures a logical stack trace of a suspended async task by substituting
the waker during one poll step.

The external `scoped_trace` crate (the frame-tree capability) and the
`futures_channel` plumbing are outside this repository; they are modelled
from the spec where the claims need them, and each such definition is
marked `Modelled from the spec:` in its doc comment.  Everything else is
a direct transcription of src/lib.rs.
-/

namespace Tasktrace

/-- Modelled from the spec: the frame tree produced by the external
`scoped_trace` capability when a capture scope closes.  The tree's internal
structure is external to this repository; the claims only quantify over how
many leaf frames were recorded during the scope, so a trace is modelled by
that count. -/
structure Trace where
  frames : Nat
  deriving DecidableEq, Repr

/-- Modelled from the spec: the frame-recording state of the external
capability.  `scope = some n` means a capture scope is currently open and
`n` leaf frames have been recorded in it; `scope = none` means no scope is
open. -/
structure TraceState where
  scope : Option Nat
  deriving DecidableEq, Repr

/-- Modelled from the spec: `Trace::leaf()` records one frame in the
currently open capture scope; outside any scope it records nothing. -/
def TraceState.leaf (ts : TraceState) : TraceState :=
  match ts.scope with
  | some n => ⟨some (n + 1)⟩
  | none => ts

/-- Observable wake effects plus the frame-recording state: `woken` is the
sequence of ambient-waker identities whose wake behavior was invoked. -/
structure WakeState where
  ts : TraceState
  woken : List Nat
  deriving DecidableEq, Repr

/-- A waker value as dispatched through its vtable: either an ambient waker
(identified by a number) or the substituted `TracedWaker` form built from
`TRACE_WAKER_VTABLE`, wrapping the waker its data pointer borrows. -/
inductive WakerImpl where
  | ambient (id : Nat)
  | traced (inner : WakerImpl)
  deriving DecidableEq, Repr

/-- Whether a waker value is backed by the substituted form. -/
def WakerImpl.isTraced : WakerImpl → Bool
  | .ambient _ => false
  | .traced _ => true

/-- `TracedWaker<'a>(&'a Waker)`: the borrowed view over the ambient waker
that backs the substituted vtable. -/
structure TracedWaker where
  inner : WakerImpl
  deriving DecidableEq, Repr

/-- Vtable dispatch of `Waker::clone`.  An ambient waker clones to itself
with no side effect; a waker backed by the substituted vtable dispatches to
`clone_raw`, whose body (record a leaf frame, then clone the wrapped waker)
is inlined here so the recursion is structural.  `clone_raw` below is the
named transcription, and `wakerClone_traced` proves the dispatch agrees
with it. -/
def wakerClone : WakerImpl → WakeState → WakerImpl × WakeState
  | .ambient i, s => (.ambient i, s)
  | .traced w, s => wakerClone w { s with ts := s.ts.leaf }

/-- `clone_raw(data)`: `Trace::leaf()`, then return a clone of the wrapped
waker `this.0`. -/
def clone_raw (this : TracedWaker) (s : WakeState) : WakerImpl × WakeState :=
  let s := { s with ts := s.ts.leaf }
  wakerClone this.inner s

/-- Vtable dispatch of `Waker::wake_by_ref`.  An ambient waker records its
wake invocation in `woken`; the substituted form dispatches to
`wake_by_ref_raw` (inlined for structural recursion, named transcription
below). -/
def wakerWakeByRef : WakerImpl → WakeState → WakeState
  | .ambient i, s => { s with woken := s.woken ++ [i] }
  | .traced w, s => wakerWakeByRef w { s with ts := s.ts.leaf }

/-- `wake_by_ref_raw(data)`: `Trace::leaf()`, then delegate to the wrapped
waker's `wake_by_ref`. -/
def wake_by_ref_raw (this : TracedWaker) (s : WakeState) : WakeState :=
  let s := { s with ts := s.ts.leaf }
  wakerWakeByRef this.inner s

/-- A hard defect: the process aborts (`unreachable!`). -/
inductive Defect where
  | unreachableWake
  | unreachableDrop
  deriving DecidableEq, Repr

/-- `wake_raw(_data)`: `unreachable!(...)` — always traps. -/
def wake_raw (_this : TracedWaker) (_s : WakeState) : Except Defect WakeState :=
  .error .unreachableWake

/-- `drop_raw(_data)`: `unreachable!(...)` — always traps. -/
def drop_raw (_this : TracedWaker) : Except Defect Unit :=
  .error .unreachableDrop

/-- Vtable dispatch of the consuming `Waker::wake`: an ambient waker wakes
normally; the substituted form dispatches to `wake_raw` and traps. -/
def wakerWake : WakerImpl → WakeState → Except Defect WakeState
  | .ambient i, s => .ok { s with woken := s.woken ++ [i] }
  | .traced w, s => wake_raw ⟨w⟩ s

/-- Vtable dispatch of dropping an owned waker: dropping an ambient waker
succeeds; the substituted form dispatches to `drop_raw` and traps. -/
def wakerDrop : WakerImpl → Except Defect Unit
  | .ambient _ => .ok ()
  | .traced w => drop_raw ⟨w⟩

/-- `TraceRequest(Sender<Trace>)`: a capture request carrying its one-shot
reply slot.  `replyOpen` models whether the slot's receiving half is still
alive (the requesting handle has not been dropped); `id` identifies the
request so deliveries can be told apart. -/
structure TraceRequest where
  id : Nat
  replyOpen : Bool
  deriving DecidableEq, Repr

/-- The result of `Sender::send` on a request's reply slot: `delivered` is
false exactly when the receiving half was already dropped, in which case the
value (which `poll` discards with `let _ =`) goes nowhere. -/
structure Reply where
  id : Nat
  delivered : Bool
  trace : Trace
  deriving DecidableEq, Repr

/-- `req.0.send(trace)` on the one-shot reply slot. -/
def TraceRequest.send (req : TraceRequest) (tr : Trace) : Reply :=
  ⟨req.id, req.replyOpen, tr⟩

/-- Poll as in `std::task::Poll`. -/
inductive Poll (α : Type) where
  | ready (a : α)
  | pending
  deriving DecidableEq, Repr

/-- Modelled from the spec: the receiving end of the unbounded
multi-producer/single-consumer request channel (external plumbing).
`queue` holds requests in arrival order, `senderClosed` is whether every
sending half has been dropped, and `registered` is the waker the receiver
registered to be woken on the next send. -/
structure Receiver where
  queue : List TraceRequest
  senderClosed : Bool
  registered : Option WakerImpl
  deriving DecidableEq, Repr

/-- Modelled from the spec: `UnboundedReceiver::poll_next(cx)`.  A queued
message is returned immediately in arrival order; on an empty queue the
stream yields `ready none` if every sender is gone, and otherwise registers
the context's waker and returns pending. -/
def Receiver.poll_next (rx : Receiver) (cx : WakerImpl) :
    Receiver × Poll (Option TraceRequest) :=
  match rx.queue with
  | req :: rest => ({ rx with queue := rest, registered := none }, .ready (some req))
  | [] =>
    if rx.senderClosed then (rx, .ready none)
    else ({ rx with registered := some cx }, .pending)

/-- Modelled from the spec: `UnboundedSender::unbounded_send` enqueues the
request and wakes (consuming the registration) whatever waker the receiver
registered; the second component lists the wakers woken by the send. -/
def Receiver.unbounded_send (rx : Receiver) (req : TraceRequest) :
    Receiver × List WakerImpl :=
  ({ rx with queue := rx.queue ++ [req], registered := none },
    rx.registered.toList)

/-- The inner future being traced: given its state, the waker in its
context and the ambient wake/recording state, one poll produces a new
future state, a new wake/recording state (it may clone or wake the waker
it was handed, which is what records frames), and a poll result. -/
structure InnerFuture (σ ω : Type) where
  step : σ → WakerImpl → WakeState → σ × WakeState × Poll ω

/-- `TracedTask { fut, req_rx }`: the wrapper owning the inner future's
state and the request channel's receiving half. -/
structure TracedTask (σ : Type) where
  fut : σ
  req_rx : Receiver
  deriving DecidableEq, Repr

/-- `TraceHandle { req_tx }`: `wrapperDropped` models whether the paired
wrapper (the channel's receiving half) has been dropped, which is what
makes `unbounded_send` fail. -/
structure TraceHandle where
  wrapperDropped : Bool
  deriving DecidableEq, Repr

/-- `traced(fut)`: constructs the wrapper/handle pairing over a fresh
channel. -/
def traced (fut : σ) : TracedTask σ × TraceHandle :=
  (⟨fut, ⟨[], false, none⟩⟩, ⟨false⟩)

/-- Instrumentation events recording what one call of `TracedTask::poll`
did, in order. -/
inductive Event where
  | pollChannel
  | scopeOpen
  | pollInner (w : WakerImpl)
  | scopeClose
  | sendReply (id : Nat) (delivered : Bool)
  deriving DecidableEq, Repr

/-- Everything one call of `TracedTask::poll` produces: the poll result,
the new future and channel states, the wake/recording state, the ordered
event log, and the reply deliveries attempted. -/
structure PollOutcome (σ ω : Type) where
  result : Poll ω
  fut : σ
  req_rx : Receiver
  state : WakeState
  events : List Event
  replies : List Reply
  deriving DecidableEq, Repr

/-- `<TracedTask<F> as Future>::poll`, transcribed line by line: poll the
request channel with the ambient context; if a request is ready, build the
substituted waker over the ambient one, open a capture scope
(`Trace::root`), poll the inner future once inside it with the substituted
context, close the scope to obtain the trace, send it to the request's
reply slot discarding the send result, and return the inner result;
otherwise poll the inner future once with the ambient context unmodified. -/
def TracedTask.poll (F : InnerFuture σ ω) (t : TracedTask σ) (cx : WakerImpl)
    (s : WakeState) : PollOutcome σ ω :=
  let (rx, polled) := t.req_rx.poll_next cx
  match polled with
  | .ready (some req) =>
    let trace_waker := WakerImpl.traced cx
    let sOpen : WakeState := { s with ts := ⟨some 0⟩ }
    let (fut2, s2, result) := F.step t.fut trace_waker sOpen
    let trace : Trace := ⟨s2.ts.scope.getD 0⟩
    let sClosed : WakeState := { s2 with ts := ⟨none⟩ }
    let rep := req.send trace
    { result := result, fut := fut2, req_rx := rx, state := sClosed,
      events := [.pollChannel, .scopeOpen, .pollInner trace_waker, .scopeClose,
        .sendReply req.id req.replyOpen],
      replies := [rep] }
  | _ =>
    let (fut2, s2, result) := F.step t.fut cx s
    { result := result, fut := fut2, req_rx := rx, state := s2,
      events := [.pollChannel, .pollInner cx], replies := [] }

/-- The possible outcomes of awaiting the one-shot reply slot's receiving
half: fulfilled with a trace, or resolved with `Canceled` because the
sending half was dropped without sending.  Modelled from the spec: the
one-shot channel is external plumbing, and dropping its sender resolves the
receiver rather than leaving it suspended forever. -/
inductive OneshotAwait where
  | fulfilled (tr : Trace)
  | canceled
  deriving DecidableEq, Repr

/-- `Result::ok` applied to the awaited reply slot. -/
def OneshotAwait.ok : OneshotAwait → Option Trace
  | .fulfilled tr => some tr
  | .canceled => none

/-- `TraceHandle::backtrace`: create a one-shot reply slot, send the request
over the channel — bailing out with `none` if the receiving half is gone —
then await the reply slot, converting cancellation to `none`. -/
def TraceHandle.backtrace (h : TraceHandle) (reply : OneshotAwait) : Option Trace :=
  if h.wrapperDropped then none
  else reply.ok

end Tasktrace

namespace Tasktrace

/-- Every clone chain bottoms out in an ambient waker: the substituted
form's clone unwraps to a clone of the waker it borrows. -/
theorem wakerClone_fst_ambient (w : WakerImpl) :
    ∀ s : WakeState, ∃ i, (wakerClone w s).1 = .ambient i := by
  induction w with
  | ambient i => exact fun _ => ⟨i, rfl⟩
  | traced w ih => exact fun s => ih _

/-- Dispatching `clone` on a waker backed by the substituted vtable is
exactly `clone_raw` on the `TracedWaker` it points to. -/
theorem wakerClone_traced (w : WakerImpl) (s : WakeState) :
    wakerClone (.traced w) s = clone_raw ⟨w⟩ s :=
  rfl

/-- Dispatching `wake_by_ref` on a waker backed by the substituted vtable
is exactly `wake_by_ref_raw` on the `TracedWaker` it points to. -/
theorem wakerWakeByRef_traced (w : WakerImpl) (s : WakeState) :
    wakerWakeByRef (.traced w) s = wake_by_ref_raw ⟨w⟩ s :=
  rfl

/-- An inner future that always stays pending and touches nothing. -/
def idleF : InnerFuture Unit Unit := ⟨fun f _ s => (f, s, .pending)⟩

/-- An inner future that finishes immediately. -/
def doneF : InnerFuture Unit Unit := ⟨fun f _ s => (f, s, .ready ())⟩

/-- A wrapper with two capture requests already queued on its channel. -/
def twoRequestTask : TracedTask Unit := ⟨(), ⟨[⟨0, true⟩, ⟨1, true⟩], false, none⟩⟩

end Tasktrace

namespace Tasktrace

/-- C1: For every poll of the wrapped task in which a capture request is
pending on the request channel, the wrapper polls the inner future exactly
once, inside a capture scope and with the substituted wake callback in the
context, then closes the scope, sends the resulting frame tree to that
request's one-shot reply slot, and returns the inner future's poll result
unchanged. -/
theorem capture_step_polls_once_in_scope (F : InnerFuture σ ω) (fut : σ)
    (req : TraceRequest) (rest : List TraceRequest) (sc : Bool)
    (reg : Option WakerImpl) (cx : WakerImpl) (s : WakeState) :
    TracedTask.poll F ⟨fut, ⟨req :: rest, sc, reg⟩⟩ cx s =
      { result := (F.step fut (.traced cx) { s with ts := ⟨some 0⟩ }).2.2,
        fut := (F.step fut (.traced cx) { s with ts := ⟨some 0⟩ }).1,
        req_rx := ⟨rest, sc, none⟩,
        state := { (F.step fut (.traced cx) { s with ts := ⟨some 0⟩ }).2.1 with
          ts := ⟨none⟩ },
        events := [.pollChannel, .scopeOpen, .pollInner (.traced cx), .scopeClose,
          .sendReply req.id req.replyOpen],
        replies := [⟨req.id, req.replyOpen,
          ⟨(F.step fut (.traced cx) { s with ts := ⟨some 0⟩ }).2.1.ts.scope.getD 0⟩⟩] } := by
  rcases hF : F.step fut (.traced cx) { s with ts := ⟨some 0⟩ } with ⟨f2, s2, p⟩
  simp [TracedTask.poll, Receiver.poll_next, hF, TraceRequest.send]

/-- C2: For every invocation of the substituted wake callback's clone
operation, exactly one frame is recorded in the currently open capture
scope, and the value produced is a clone of the underlying ambient wake
callback, never another substituted callback. -/
theorem clone_raw_records_one_frame_and_unwraps (i n : Nat) (woken : List Nat) :
    clone_raw ⟨.ambient i⟩ ⟨⟨some n⟩, woken⟩ = (.ambient i, ⟨⟨some (n + 1)⟩, woken⟩) ∧
    (clone_raw ⟨.ambient i⟩ ⟨⟨some n⟩, woken⟩).1.isTraced = false ∧
    (clone_raw ⟨.ambient i⟩ ⟨⟨some n⟩, woken⟩).1 =
      (wakerClone (.ambient i) ⟨⟨some n⟩, woken⟩).1 :=
  ⟨rfl, rfl, rfl⟩

/-- C3: The consume-and-wake and drop operations of the substituted wake
callback trap as a hard defect if ever invoked, and under the clone
contract (cloning always yields a clone of the ambient callback, so no
owned callback is ever backed by the substituted form) these two
operations are unreachable: waking or dropping any clone-produced waker
succeeds without ever dispatching into them. -/
theorem wake_drop_trap_and_unreachable :
    (∀ (tw : TracedWaker) (s : WakeState), wake_raw tw s = .error .unreachableWake) ∧
    (∀ tw : TracedWaker, drop_raw tw = .error .unreachableDrop) ∧
    (∀ (w : WakerImpl) (s : WakeState), (wakerClone w s).1.isTraced = false) ∧
    (∀ (w : WakerImpl) (s t : WakeState),
      (∃ u, wakerWake (wakerClone w s).1 t = .ok u) ∧
        wakerDrop (wakerClone w s).1 = .ok ()) := by
  refine ⟨fun _ _ => rfl, fun _ => rfl, ?_, ?_⟩
  · intro w s
    obtain ⟨i, hi⟩ := wakerClone_fst_ambient w s
    rw [hi]
    rfl
  · intro w s t
    obtain ⟨i, hi⟩ := wakerClone_fst_ambient w s
    rw [hi]
    exact ⟨⟨_, rfl⟩, rfl⟩

/-- C4 counterexample: with two capture requests queued at the start of a
drive step, the step produces only one reply and leaves the second request
still queued, so the wrapper does not service all queued requests within
that drive step. -/
theorem poll_leaves_second_request_queued :
    (TracedTask.poll idleF twoRequestTask (.ambient 7) ⟨⟨none⟩, []⟩).replies.length = 1 ∧
    (TracedTask.poll idleF twoRequestTask (.ambient 7) ⟨⟨none⟩, []⟩).req_rx.queue =
      [⟨1, true⟩] :=
  ⟨rfl, rfl⟩

/-- C4 (amended): For every drive step at whose start one or more capture
requests are queued, the wrapper services exactly one request — the oldest
— performing one capture for it, and leaves the remaining requests queued
in arrival order for subsequent drive steps. -/
theorem poll_services_one_request_per_step (F : InnerFuture σ ω) (fut : σ)
    (req : TraceRequest) (rest : List TraceRequest) (sc : Bool)
    (reg : Option WakerImpl) (cx : WakerImpl) (s : WakeState) :
    (TracedTask.poll F ⟨fut, ⟨req :: rest, sc, reg⟩⟩ cx s).replies.map Reply.id =
      [req.id] ∧
    (TracedTask.poll F ⟨fut, ⟨req :: rest, sc, reg⟩⟩ cx s).req_rx.queue = rest ∧
    (TracedTask.poll F ⟨fut, ⟨req :: rest, sc, reg⟩⟩ cx s).events.count
      Event.scopeOpen = 1 := by
  rcases hF : F.step fut (.traced cx) { s with ts := ⟨some 0⟩ } with ⟨f2, s2, p⟩
  refine ⟨?_, ?_, ?_⟩ <;>
    simp [TracedTask.poll, Receiver.poll_next, hF, TraceRequest.send, List.count]

end Tasktrace

namespace Tasktrace

/-- C5: For every call of the handle's backtrace operation, if the wrapper
has already finished or been dropped (the request channel or the reply
slot is closed), the call resolves to `none` rather than panicking,
raising a fault, or suspending forever. -/
theorem backtrace_none_when_closed (h : TraceHandle) (r : OneshotAwait)
    (hc : h.wrapperDropped = true ∨ r = .canceled) :
    h.backtrace r = none := by
  rcases hc with hd | hr
  · simp [TraceHandle.backtrace, hd]
  · subst hr
    cases hw : h.wrapperDropped <;>
      simp [TraceHandle.backtrace, hw, OneshotAwait.ok]

/-- C5 witness: a handle whose wrapper is dropped resolves to `none`. -/
theorem backtrace_none_when_closed_witness :
    ((⟨true⟩ : TraceHandle).wrapperDropped = true ∨
      (OneshotAwait.canceled = OneshotAwait.canceled)) ∧
    TraceHandle.backtrace ⟨true⟩ .canceled = none :=
  ⟨Or.inl rfl, backtrace_none_when_closed ⟨true⟩ .canceled (Or.inl rfl)⟩

/-- C6: For every poll of the wrapped task in which no capture request is
pending, the wrapper polls the inner future exactly once with the ambient
wake callback unmodified, records no frames and opens no capture scope,
returns the inner future's poll result unchanged — and cloning the ambient
callback it passed along records nothing. -/
theorem no_request_plain_poll (F : InnerFuture σ ω) (fut : σ) (sc : Bool)
    (reg : Option WakerImpl) (i : Nat) (s : WakeState) :
    TracedTask.poll F ⟨fut, ⟨[], sc, reg⟩⟩ (.ambient i) s =
      { result := (F.step fut (.ambient i) s).2.2,
        fut := (F.step fut (.ambient i) s).1,
        req_rx := ⟨[], sc, if sc then reg else some (.ambient i)⟩,
        state := (F.step fut (.ambient i) s).2.1,
        events := [.pollChannel, .pollInner (.ambient i)],
        replies := [] } ∧
    ∀ s₂ : WakeState, wakerClone (.ambient i) s₂ = (.ambient i, s₂) := by
  refine ⟨?_, fun _ => rfl⟩
  rcases hF : F.step fut (.ambient i) s with ⟨f2, s2, p⟩
  cases sc <;> simp [TracedTask.poll, Receiver.poll_next, hF]

/-- C7: For every invocation of the substituted wake callback's
wake-by-reference operation, exactly one frame is recorded in the
currently open capture scope and then the ambient wake callback's
wake-by-reference behavior is invoked, so the externally visible wake
effect is identical to waking the ambient callback by reference. -/
theorem wake_by_ref_raw_records_and_delegates (i n : Nat) (woken : List Nat) :
    wake_by_ref_raw ⟨.ambient i⟩ ⟨⟨some n⟩, woken⟩ = ⟨⟨some (n + 1)⟩, woken ++ [i]⟩ ∧
    (wake_by_ref_raw ⟨.ambient i⟩ ⟨⟨some n⟩, woken⟩).woken =
      (wakerWakeByRef (.ambient i) ⟨⟨some n⟩, woken⟩).woken :=
  ⟨rfl, rfl⟩

/-- C8: Dropping a handle while a capture request is outstanding never
panics the wrapped task and never changes the task's behavior: the
wrapper still performs the capture and discards the undeliverable reply,
with the task-visible outcome identical to the open-slot case, and drive
steps after every handle is dropped behave exactly as steps with no
request pending. -/
theorem handle_drop_harmless (F : InnerFuture σ ω) (fut : σ) (i : Nat)
    (rest : List TraceRequest) (sc : Bool) (reg : Option WakerImpl)
    (cx : WakerImpl) (s : WakeState) :
    (TracedTask.poll F ⟨fut, ⟨⟨i, false⟩ :: rest, sc, reg⟩⟩ cx s).replies.map
      Reply.delivered = [false] ∧
    (TracedTask.poll F ⟨fut, ⟨⟨i, false⟩ :: rest, sc, reg⟩⟩ cx s).events.count
      Event.scopeOpen = 1 ∧
    ((TracedTask.poll F ⟨fut, ⟨⟨i, false⟩ :: rest, sc, reg⟩⟩ cx s).result =
        (TracedTask.poll F ⟨fut, ⟨⟨i, true⟩ :: rest, sc, reg⟩⟩ cx s).result ∧
      (TracedTask.poll F ⟨fut, ⟨⟨i, false⟩ :: rest, sc, reg⟩⟩ cx s).fut =
        (TracedTask.poll F ⟨fut, ⟨⟨i, true⟩ :: rest, sc, reg⟩⟩ cx s).fut ∧
      (TracedTask.poll F ⟨fut, ⟨⟨i, false⟩ :: rest, sc, reg⟩⟩ cx s).state =
        (TracedTask.poll F ⟨fut, ⟨⟨i, true⟩ :: rest, sc, reg⟩⟩ cx s).state ∧
      (TracedTask.poll F ⟨fut, ⟨⟨i, false⟩ :: rest, sc, reg⟩⟩ cx s).req_rx =
        (TracedTask.poll F ⟨fut, ⟨⟨i, true⟩ :: rest, sc, reg⟩⟩ cx s).req_rx) ∧
    ((TracedTask.poll F ⟨fut, ⟨[], true, reg⟩⟩ cx s).result =
        (TracedTask.poll F ⟨fut, ⟨[], false, reg⟩⟩ cx s).result ∧
      (TracedTask.poll F ⟨fut, ⟨[], true, reg⟩⟩ cx s).fut =
        (TracedTask.poll F ⟨fut, ⟨[], false, reg⟩⟩ cx s).fut ∧
      (TracedTask.poll F ⟨fut, ⟨[], true, reg⟩⟩ cx s).state =
        (TracedTask.poll F ⟨fut, ⟨[], false, reg⟩⟩ cx s).state ∧
      (TracedTask.poll F ⟨fut, ⟨[], true, reg⟩⟩ cx s).events =
        (TracedTask.poll F ⟨fut, ⟨[], false, reg⟩⟩ cx s).events ∧
      (TracedTask.poll F ⟨fut, ⟨[], true, reg⟩⟩ cx s).replies =
        (TracedTask.poll F ⟨fut, ⟨[], false, reg⟩⟩ cx s).replies) := by
  rcases hF : F.step fut (.traced cx) { s with ts := ⟨some 0⟩ } with ⟨f2, s2, p⟩
  rcases hG : F.step fut cx s with ⟨g2, t2, q⟩
  refine ⟨?_, ?_, ⟨?_, ?_, ?_, ?_⟩, ⟨?_, ?_, ?_, ?_, ?_⟩⟩ <;>
    simp [TracedTask.poll, Receiver.poll_next, hF, hG, TraceRequest.send, List.count]

/-- C9: If a capture request is pending on the very drive step in which
the inner future finishes, the frame tree is still sent to that request's
reply slot before the finished result is returned, so the requester
receives a tree rather than no answer even though the task completes on
that step. -/
theorem final_step_still_replies (F : InnerFuture σ ω) (fut f2 : σ)
    (req : TraceRequest) (rest : List TraceRequest) (sc : Bool)
    (reg : Option WakerImpl) (cx : WakerImpl) (s s2 : WakeState) (v : ω)
    (hF : F.step fut (.traced cx) { s with ts := ⟨some 0⟩ } = (f2, s2, .ready v)) :
    (TracedTask.poll F ⟨fut, ⟨req :: rest, sc, reg⟩⟩ cx s).result = .ready v ∧
    (TracedTask.poll F ⟨fut, ⟨req :: rest, sc, reg⟩⟩ cx s).replies =
      [⟨req.id, req.replyOpen, ⟨s2.ts.scope.getD 0⟩⟩] := by
  constructor <;>
    simp [TracedTask.poll, Receiver.poll_next, hF, TraceRequest.send]

/-- C9 witness: a request pending on the finishing step is answered with
the captured tree. -/
theorem final_step_still_replies_witness :
    doneF.step () (.traced (.ambient 3)) ⟨⟨some 0⟩, []⟩ = ((), ⟨⟨some 0⟩, []⟩, .ready ()) ∧
    (TracedTask.poll doneF ⟨(), ⟨[⟨5, true⟩], false, none⟩⟩ (.ambient 3)
      ⟨⟨none⟩, []⟩).result = .ready () ∧
    (TracedTask.poll doneF ⟨(), ⟨[⟨5, true⟩], false, none⟩⟩ (.ambient 3)
      ⟨⟨none⟩, []⟩).replies = [⟨5, true, ⟨0⟩⟩] := by
  refine ⟨rfl, ?_⟩
  exact final_step_still_replies doneF () () ⟨5, true⟩ [] false none (.ambient 3)
    ⟨⟨none⟩, []⟩ ⟨⟨some 0⟩, []⟩ () rfl

/-- C10: Every poll of the wrapped task first polls the request channel
with the ambient context; in particular when no request is pending the
poll registers the ambient wake callback with the channel, so a request
sent through a handle while the task is suspended wakes exactly that
ambient callback and forces a re-drive without any external poke. -/
theorem channel_polled_first_registers_waker (F : InnerFuture σ ω)
    (t : TracedTask σ) (fut : σ) (reg : Option WakerImpl) (cx : WakerImpl)
    (s : WakeState) (req : TraceRequest) :
    (TracedTask.poll F t cx s).events.head? = some .pollChannel ∧
    (TracedTask.poll F ⟨fut, ⟨[], false, reg⟩⟩ cx s).req_rx.registered = some cx ∧
    ((TracedTask.poll F ⟨fut, ⟨[], false, reg⟩⟩ cx s).req_rx.unbounded_send req).2 =
      [cx] := by
  refine ⟨?_, ?_, ?_⟩
  · obtain ⟨fut0, ⟨q, sc, reg0⟩⟩ := t
    cases q with
    | nil =>
      rcases hG : F.step fut0 cx s with ⟨g2, t2, p⟩
      cases sc <;> simp [TracedTask.poll, Receiver.poll_next, hG]
    | cons req0 rest =>
      rcases hF : F.step fut0 (.traced cx) { s with ts := ⟨some 0⟩ } with ⟨f2, s2, p⟩
      simp [TracedTask.poll, Receiver.poll_next, hF]
  all_goals
    rcases hG : F.step fut cx s with ⟨g2, t2, p⟩
    simp [TracedTask.poll, Receiver.poll_next, Receiver.unbounded_send, hG]

end Tasktrace
